import Mathlib

/-!
Formal model of the base-commit resolution logic of the commit-sense tool
(`src/git.rs`: `find_base_commit_oid`, `get_commit_oid`, `get_commit_time`,
`get_commits_since_oid`), together with models of the external behaviour the
code depends on: the `semver` crate (version parsing and total order), the
`glob` crate (pattern compilation and matching), the `regex` crate (on the
pattern fragment this development uses), and the behaviour of the `git`
command line tool for the exact invocations the source issues (verified
against git 2.39: in particular `git rev-parse <ref>@\x7b\x7d` is rejected for
every ref because the `@\x7b\x7d` suffix is not valid revision syntax, and
`git log`/`git rev-list` on a repository with zero commits fail with
"ambiguous argument" errors).
-/

namespace CommitSense

/-! ## Model of the `semver` crate (version 1.x)

`semver::Version` is a record of `major`/`minor`/`patch` (u64), a pre-release
identifier list and a build-metadata identifier list.  `Version::parse`
accepts `MAJOR.MINOR.PATCH[-PRE][+BUILD]`; numeric components are decimal
u64 values without leading zeros; pre-release and build identifiers are
nonempty strings over `[0-9A-Za-z-]`, with all-numeric pre-release
identifiers forbidden from having leading zeros.  The crate implements a
total order: precedence per the SemVer spec refined by comparing build
metadata (its `Eq` is structural, so `Ord` cannot ignore build metadata). -/

/-- A parsed semantic version, mirroring `semver::Version`.  An absent
pre-release or build component is the empty list. -/
structure Version where
  major : Nat
  minor : Nat
  patch : Nat
  pre : List String
  build : List String
deriving DecidableEq, Repr

/-- ASCII letter test (the crate accepts `[A-Za-z]` in identifiers). -/
def isAsciiAlpha (c : Char) : Bool :=
  (65 ≤ c.toNat && c.toNat ≤ 90) || (97 ≤ c.toNat && c.toNat ≤ 122)

/-- Characters allowed inside pre-release/build identifiers: `[0-9A-Za-z-]`. -/
def isIdentChar (c : Char) : Bool :=
  c.isDigit || isAsciiAlpha c || c = '-'

/-- Split a character list at the first occurrence of `sep`; `none` when the
separator does not occur. -/
def splitFirst (sep : Char) : List Char → List Char × Option (List Char)
  | [] => ([], none)
  | c :: cs =>
    if c = sep then ([], some cs)
    else
      let r := splitFirst sep cs
      (c :: r.1, r.2)

/-- Split a character list on every occurrence of `sep`, keeping empty
components (the semantics of `str::split` in Rust and `String.splitOn` in
this file's models). -/
def splitOnCharL (sep : Char) : List Char → List (List Char)
  | [] => [[]]
  | c :: cs =>
    if c = sep then [] :: splitOnCharL sep cs
    else
      match splitOnCharL sep cs with
      | [] => [[c]]
      | h :: t => (c :: h) :: t

/-- Split a character list on every `.` (empty components are kept, as in
the crate, where they then fail identifier validation). -/
def splitDots (cs : List Char) : List (List Char) :=
  splitOnCharL '.' cs

/-- Numeric value of a digit list (most significant first). -/
def digitsToNat (ds : List Char) : Nat :=
  ds.foldl (fun acc c => 10 * acc + (c.toNat - 48)) 0

/-- ASCII whitespace (the characters Rust's `str::trim` removes that occur
in git output). -/
def isWS (c : Char) : Bool :=
  c = ' ' || c = '\t' || c = '\n' || c = '\r'

/-- Rust `str::trim` on a character list. -/
def trimChars (cs : List Char) : List Char :=
  ((cs.dropWhile isWS).reverse.dropWhile isWS).reverse

/-- ASCII lower-casing of one character (what a case-insensitive match of
an ASCII pattern folds). -/
def asciiToLower (c : Char) : Char :=
  if 65 ≤ c.toNat ∧ c.toNat ≤ 90 then Char.ofNat (c.toNat + 32) else c

/-- Is the first list a prefix of the second? -/
def isPrefixL : List Char → List Char → Bool
  | [], _ => true
  | _ :: _, [] => false
  | a :: as, b :: bs => a = b && isPrefixL as bs

/-- Fuelled split on a nonempty separator sublist, non-overlapping, left
to right (the semantics of Rust's `str::split(marker)` and Lean's
`String.splitOn`); the fuel supplied by `splitOnSub` is always
sufficient. -/
def splitOnSubF (sep : List Char) : Nat → List Char → List (List Char)
  | 0, _ => [[]]
  | _ + 1, [] => [[]]
  | fuel + 1, c :: cs =>
    if isPrefixL sep (c :: cs) then
      [] :: splitOnSubF sep fuel ((c :: cs).drop sep.length)
    else
      match splitOnSubF sep fuel cs with
      | [] => [[c]]
      | h :: t => (c :: h) :: t

/-- Split a string on a nonempty separator substring. -/
def splitOnSub (sep s : String) : List String :=
  (splitOnSubF sep.data (s.data.length + 1) s.data).map (fun l => (⟨l⟩ : String))

/-- Join strings with a separator (`Vec::join` / `String.intercalate`). -/
def joinSep (sep : String) : List String → String
  | [] => ""
  | [x] => x
  | x :: xs => x ++ sep ++ joinSep sep xs

/-- Decimal digits of a natural number (fuelled; the fuel supplied by
`natToDecimal` is always sufficient). -/
def natDigitsF : Nat → Nat → List Char
  | 0, _ => []
  | fuel + 1, n =>
    if n < 10 then [Char.ofNat (48 + n)]
    else natDigitsF fuel (n / 10) ++ [Char.ofNat (48 + n % 10)]

/-- Decimal rendering of a natural number. -/
def natToDecimal (n : Nat) : String := ⟨natDigitsF (n + 1) n⟩

/-- Decimal rendering of an integer (git's `%ct` output format). -/
def intToDecimal (i : Int) : String :=
  match i with
  | .ofNat n => natToDecimal n
  | .negSucc n => "-" ++ natToDecimal (n + 1)

/-- The crate stores version components as `u64`. -/
def u64Bound : Nat := 18446744073709551616

/-- `numeric_identifier` of the crate: a nonempty all-digit string, no
leading zero unless the whole component is `0`, value below `2^64`. -/
def parseNumericId (cs : List Char) : Option Nat :=
  if cs = [] then none
  else if ¬ cs.all (·.isDigit) then none
  else if cs.head? = some '0' ∧ cs.length > 1 then none
  else
    let n := digitsToNat cs
    if n < u64Bound then some n else none

/-- Validate one pre-release (`noLeadZero = true`) or build identifier. -/
def validIdent (noLeadZero : Bool) (cs : List Char) : Bool :=
  cs ≠ [] && cs.all isIdentChar &&
    !(noLeadZero && cs.all (·.isDigit) && cs.head? = some '0' && cs.length > 1)

/-- Parse a dot-separated identifier list (pre-release or build part). -/
def parseIdents (noLeadZero : Bool) (cs : List Char) : Option (List String) :=
  let parts := splitDots cs
  if parts.all (validIdent noLeadZero) then some (parts.map (fun p => ⟨p⟩))
  else none

/-- `semver::Version::parse`.  The text is split at the first `+` (build
metadata) and, left of it, at the first `-` (pre-release); the remaining
core must be exactly `MAJOR.MINOR.PATCH`.  This is equivalent to the
crate's left-to-right parse: `-` cannot occur in a valid core and `+` is
not a valid identifier character, so the first occurrences are the
component boundaries. -/
def Version.parse (s : String) : Option Version :=
  let p := splitFirst '+' s.data
  let m := splitFirst '-' p.1
  match splitDots m.1 with
  | [maj, min, pat] =>
    match parseNumericId maj, parseNumericId min, parseNumericId pat with
    | some a, some b, some c =>
      let preIds : Option (List String) :=
        match m.2 with
        | none => some []
        | some rest => parseIdents true rest
      let buildIds : Option (List String) :=
        match p.2 with
        | none => some []
        | some rest => parseIdents false rest
      match preIds, buildIds with
      | some pre, some build => some ⟨a, b, c, pre, build⟩
      | _, _ => none
    | _, _, _ => none
  | _ => none

/-- Lexicographic comparison of character lists (ASCII order, as `str`
comparison in Rust on ASCII identifiers). -/
def cmpChars : List Char → List Char → Ordering
  | [], [] => .eq
  | [], _ :: _ => .lt
  | _ :: _, [] => .gt
  | a :: as, b :: bs =>
    if a < b then .lt else if b < a then .gt else cmpChars as bs

/-- Pre-release identifier comparison (crate `Ord for Prerelease`, one
identifier): all-numeric identifiers compare numerically (by length, then
lexically — no leading zeros exist after parsing), numeric sorts below
alphanumeric, alphanumeric compares in ASCII order. -/
def cmpPreIdent (a b : List Char) : Ordering :=
  match a.all (·.isDigit), b.all (·.isDigit) with
  | true, true => (compare a.length b.length).then (cmpChars a b)
  | true, false => .lt
  | false, true => .gt
  | false, false => cmpChars a b

/-- Pairwise identifier-list comparison; a strict prefix compares lower. -/
def cmpIdentList (cmp1 : List Char → List Char → Ordering) :
    List (List Char) → List (List Char) → Ordering
  | [], [] => .eq
  | [], _ :: _ => .lt
  | _ :: _, [] => .gt
  | a :: as, b :: bs =>
    match cmp1 a b with
    | .eq => cmpIdentList cmp1 as bs
    | o => o

/-- Crate `Ord for Prerelease`: an absent pre-release (a real release)
compares greater than any pre-release. -/
def cmpPre (a b : List String) : Ordering :=
  match a, b with
  | [], [] => .eq
  | [], _ :: _ => .gt
  | _ :: _, [] => .lt
  | _, _ => cmpIdentList cmpPreIdent (a.map String.data) (b.map String.data)

/-- Build-metadata identifier comparison (crate `Ord for BuildMetadata`,
one identifier): all-numeric identifiers (leading zeros allowed here)
compare by zero-trimmed length, then zero-trimmed text, then raw length
(`0 < 00 < 1 < 01 < 001 < 2`); numeric sorts below alphanumeric. -/
def cmpBuildIdent (a b : List Char) : Ordering :=
  match a.all (·.isDigit), b.all (·.isDigit) with
  | true, true =>
    let a2 := a.dropWhile (· = '0')
    let b2 := b.dropWhile (· = '0')
    ((compare a2.length b2.length).then (cmpChars a2 b2)).then
      (compare a.length b.length)
  | true, false => .lt
  | false, true => .gt
  | false, false => cmpChars a b

/-- Crate `Ord for BuildMetadata` (empty metadata compares below any
nonempty metadata, matching the crate's comparison of the empty string). -/
def cmpBuild (a b : List String) : Ordering :=
  cmpIdentList cmpBuildIdent (a.map String.data) (b.map String.data)

/-- Crate `Ord for Version`: `major`, `minor`, `patch`, pre-release, then
build metadata.  This is SemVer precedence refined by build metadata so as
to be consistent with structural equality. -/
def Version.cmp (x y : Version) : Ordering :=
  (compare x.major y.major).then <|
    (compare x.minor y.minor).then <|
      (compare x.patch y.patch).then <|
        (cmpPre x.pre y.pre).then (cmpBuild x.build y.build)

/-- Rust `version > latest` on `semver::Version`. -/
def Version.gt (x y : Version) : Bool := x.cmp y = .gt

/-- Standard SemVer *precedence* equivalence (build metadata ignored), as
written in the specification.  Used only to compare the specification's
selection rule against the code's; the code itself uses `Version.cmp`. -/
def specPrecEq (x y : Version) : Bool :=
  x.major = y.major && x.minor = y.minor && x.patch = y.patch && x.pre = y.pre

/-- Standard SemVer precedence order (build metadata ignored), as written
in the specification. -/
def specPrecLt (x y : Version) : Bool :=
  Version.cmp ⟨x.major, x.minor, x.patch, x.pre, []⟩
    ⟨y.major, y.minor, y.patch, y.pre, []⟩ = .lt

/-! ## Model of the `glob` crate (`glob::Pattern`)

`Pattern::new` compiles a pattern of literal characters, `?` (any one
character), `*` (any sequence) and `[...]`/`[!...]` character classes, and
fails with a `PatternError` on malformed patterns (e.g. an unclosed `[`).
`Pattern::matches` matches the whole string; with the default
`MatchOptions` the wildcards also match `/`.  The model covers the crate on
patterns without the recursive `**` wildcard and without `]`/`-` literals
inside classes: patterns outside this fragment are conservatively mapped to
a `PatternError` (none occur in this development). -/

/-- One compiled token of a glob pattern. -/
inductive GlobToken
  | lit (c : Char)
  | anyChar
  | anySeq
  | charClass (negated : Bool) (ranges : List (Char × Char))
deriving DecidableEq, Repr

/-- A compiled glob pattern (`glob::Pattern`). -/
structure GlobPattern where
  tokens : List GlobToken
deriving DecidableEq, Repr

/-- Parse the body of a character class after `[`/`[!`, up to the closing
`]`; items are single characters or `c-d` ranges.  Fails (`none`) when the
class is unclosed. -/
def parseClassItems : List Char → Option (List (Char × Char) × List Char)
  | [] => none
  | ']' :: rest => some ([], rest)
  | c :: '-' :: d :: rest =>
    if c = ']' then some ([], '-' :: d :: rest)
    else if d = ']' then none
    else
      match parseClassItems rest with
      | some (items, rest2) => some ((c, d) :: items, rest2)
      | none => none
  | c :: rest =>
    match parseClassItems rest with
    | some (items, rest2) => some ((c, c) :: items, rest2)
    | none => none

/-- Fuelled glob compiler (fuel makes the recursion structural; the fuel
supplied by `GlobPattern.new` is always sufficient). -/
def parseGlobF : Nat → List Char → Option (List GlobToken)
  | 0, _ => none
  | _ + 1, [] => some []
  | fuel + 1, c :: rest =>
    if c = '?' then (parseGlobF fuel rest).map (.anyChar :: ·)
    else if c = '*' then
      match rest with
      | '*' :: _ => none
      | _ => (parseGlobF fuel rest).map (.anySeq :: ·)
    else if c = '[' then
      let neg := rest.head? = some '!'
      let rest1 := if neg then rest.tail else rest
      match parseClassItems rest1 with
      | some (items, rest2) =>
        if items = [] then none
        else (parseGlobF fuel rest2).map (.charClass neg items :: ·)
      | none => none
    else (parseGlobF fuel rest).map (.lit c :: ·)

/-- `glob::Pattern::new`: compile or fail with a `PatternError`. -/
def GlobPattern.new (s : String) : Except String GlobPattern :=
  match parseGlobF (s.data.length + 1) s.data with
  | some toks => .ok ⟨toks⟩
  | none => .error "Pattern syntax error near position 0: invalid range pattern"

/-- Does one character satisfy a (possibly negated) character class? -/
def classMatch (negated : Bool) (ranges : List (Char × Char)) (c : Char) : Bool :=
  let inClass := ranges.any (fun r => r.1 ≤ c && c ≤ r.2)
  if negated then !inClass else inClass

/-- Fuelled whole-string glob matcher; every recursive call shrinks
`tokens.length + chars.length`, so the fuel supplied by
`GlobPattern.matches` is always sufficient. -/
def globMatchF : Nat → List GlobToken → List Char → Bool
  | 0, _, _ => false
  | _ + 1, [], cs => cs.isEmpty
  | fuel + 1, .lit c :: ts, cs =>
    match cs with
    | x :: xs => c = x && globMatchF fuel ts xs
    | [] => false
  | fuel + 1, .anyChar :: ts, cs =>
    match cs with
    | _ :: xs => globMatchF fuel ts xs
    | [] => false
  | fuel + 1, .anySeq :: ts, cs =>
    globMatchF fuel ts cs ||
      (match cs with
       | _ :: xs => globMatchF fuel (.anySeq :: ts) xs
       | [] => false)
  | fuel + 1, .charClass neg ranges :: ts, cs =>
    match cs with
    | x :: xs => classMatch neg ranges x && globMatchF fuel ts xs
    | [] => false

/-- `glob::Pattern::matches` with default `MatchOptions`. -/
def GlobPattern.matches (p : GlobPattern) (s : String) : Bool :=
  globMatchF (p.tokens.length + s.data.length + 1) p.tokens s.data

/-! ## Model of the `regex` crate (fragment)

`Regex::new` compiles an expression or fails with a syntax error (e.g. an
unclosed group `(`); `Regex::is_match` searches for a match anywhere in
the text unless the expression is anchored.  The model covers the crate on
expressions built from an optional leading `^`, an optional trailing `$`,
literal characters (letters, digits, space, colon, underscore, slash,
hyphen) and the `.` wildcard (which, as in
the crate, does not match a newline).  Every expression outside this
fragment is conservatively mapped to a syntax error; every expression the
development instantiates is inside the fragment, and the concrete error
witnesses (such as `(`) are expressions the crate rejects too. -/

/-- One token of a compiled regular expression. -/
inductive RegexToken
  | lit (c : Char)
  | dot
deriving DecidableEq, Repr

/-- A compiled regular expression (`regex::Regex`) in the modelled
fragment. -/
structure Regex where
  anchoredStart : Bool
  anchoredEnd : Bool
  tokens : List RegexToken
deriving DecidableEq, Repr

/-- Literal characters admitted by the modelled regex fragment. -/
def regexLitChar (c : Char) : Bool :=
  c.isAlphanum || c = ' ' || c = ':' || c = '_' || c = '/' || c = '-'

/-- `regex::Regex::new` on the modelled fragment. -/
def Regex.new (s : String) : Except String Regex :=
  let p1 := match s.data with
    | '^' :: r => (true, r)
    | r => (false, r)
  let p2 := match p1.2.reverse with
    | '$' :: rrev => (true, rrev.reverse)
    | _ => (false, p1.2)
  if p2.2.all (fun c => regexLitChar c || c = '.') then
    .ok ⟨p1.1, p2.1, p2.2.map (fun c => if c = '.' then .dot else .lit c)⟩
  else .error "regex parse error: unsupported or invalid syntax"

/-- Does one token match one character (`.` matches anything but a
newline)? -/
def regexTokenMatch (t : RegexToken) (c : Char) : Bool :=
  match t with
  | .lit l => l = c
  | .dot => c ≠ '\n'

/-- Match the token list at the start of the text (respecting a trailing
anchor). -/
def regexMatchHere (anchoredEnd : Bool) : List RegexToken → List Char → Bool
  | [], cs => if anchoredEnd then cs.isEmpty else true
  | _ :: _, [] => false
  | t :: ts, c :: cs => regexTokenMatch t c && regexMatchHere anchoredEnd ts cs

/-- Search for a match at any position of the text. -/
def regexSearch (anchoredEnd : Bool) (ts : List RegexToken) : List Char → Bool
  | [] => regexMatchHere anchoredEnd ts []
  | c :: cs => regexMatchHere anchoredEnd ts (c :: cs) || regexSearch anchoredEnd ts cs

/-- `regex::Regex::is_match`. -/
def Regex.is_match (re : Regex) (s : String) : Bool :=
  if re.anchoredStart then regexMatchHere re.anchoredEnd re.tokens s.data
  else regexSearch re.anchoredEnd re.tokens s.data

/-! ## Error model (`src/error.rs` and `anyhow`)

`CommitSenseError` is the tool's error enum; the variants not arising in
the modelled code paths are omitted.  `find_base_commit_oid` returns
`anyhow::Result`, so a propagated error is the root error (either a
`CommitSenseError`, a `glob::PatternError` or a `regex::Error`, converted
by `?`) together with the stack of `with_context` messages. -/

/-- The variants of `CommitSenseError` reachable from the modelled code. -/
inductive CommitSenseError
  | Config (msg : String)
  | GitCommand (msg : String)
  | Version (msg : String)
deriving DecidableEq, Repr

/-- The root cause stored in an `anyhow::Error` in the modelled code:
either a `CommitSenseError`, or one of the two library errors converted
directly by `?` in `find_base_commit_oid`. -/
inductive RootError
  | cs (e : CommitSenseError)
  | globPattern (msg : String)
  | regexSyntax (msg : String)
deriving DecidableEq, Repr

/-- An `anyhow::Error`: the root cause plus the `with_context` messages
wrapped around it (innermost last). -/
structure AnyhowError where
  context : List String
  root : RootError
deriving DecidableEq, Repr

/-- Is the root cause of an error the `GitCommand` variant? -/
def AnyhowError.rootIsGitCommand (e : AnyhowError) : Bool :=
  match e.root with
  | .cs (.GitCommand _) => true
  | _ => false

/-- Is the root cause of an error the `Version` or `Config` variant? -/
def AnyhowError.rootIsVersionOrConfig (e : AnyhowError) : Bool :=
  match e.root with
  | .cs (.Version _) => true
  | .cs (.Config _) => true
  | _ => false

/-- Is this error the `GitCommand` variant? -/
def CommitSenseError.isGitCommand : CommitSenseError → Bool
  | .GitCommand _ => true
  | _ => false

/-! ## Model of the git command layer (`src/git.rs`)

`find_base_commit_oid` and its helpers issue exactly six shapes of git
invocation; `GitCmd` enumerates them.  A repository (together with the git
binary) is modelled as a function from commands to either the stdout text
(success) or the stderr text (nonzero exit), exactly the two outcomes
`run_git_command_internal` distinguishes. -/

/-- The git invocations issued by the modelled code, with their argument
vectors (`GitCmd.render` reproduces `args.join(" ")` as used in the error
messages). -/
inductive GitCmd
  | tagList
  | logTime (git_ref : String)
  | revParse (spec : String)
  | grepRelease
  | revListRoots
  | logRange (range : String)
deriving DecidableEq, Repr

/-- `args.join(" ")` for each invocation, as interpolated into the error
message of `run_git_command_internal`.  (The grep argument itself ends in a
space, hence the doubled space in its rendering.) -/
def GitCmd.render : GitCmd → String
  | .tagList => "tag --list"
  | .logTime git_ref => "log -1 --format=%ct " ++ git_ref
  | .revParse spec => "rev-parse " ++ spec
  | .grepRelease => "log --grep=^release:  -i -E -n 1 --format=%H HEAD"
  | .revListRoots => "rev-list --max-parents=0 HEAD"
  | .logRange range => "log " ++ range ++ " --format=%B%n<EOM> --reverse"

/-- A repository as seen through git invocations: stdout on success,
stderr on failure. -/
def GitCLI : Type := GitCmd → Except String String

/-- `run_git_command_internal` (merged with `parse_output`'s UTF-8 step):
a failing command becomes a `GitCommand` error embedding the rendered
command line and the stderr text. -/
def run_git_command_internal (cli : GitCLI) (cmd : GitCmd) :
    Except CommitSenseError String :=
  match cli cmd with
  | .ok output => .ok output
  | .error stderr =>
    .error (.GitCommand
      ("Git command `git " ++ cmd.render ++ "` failed. Stderr: " ++ stderr))

/-- `parse_output`: trim the stdout text. -/
def parse_output (output : String) : String := ⟨trimChars output.data⟩

/-- `parse_output_lines`: split stdout into lines, dropping empty ones. -/
def parse_output_lines (output : String) : List String :=
  ((splitOnCharL '\n' output.data).map (fun l => (⟨l⟩ : String))).filter (· ≠ "")

/-- Rust `str::parse::<i64>`: an optional sign followed by decimal digits,
rejecting values outside the two's-complement 64-bit range. -/
def parseI64 (s : String) : Option Int :=
  let p : Bool × List Char :=
    match s.data with
    | '-' :: ds => (true, ds)
    | '+' :: ds => (false, ds)
    | ds => (false, ds)
  if p.2 = [] then none
  else if ¬ p.2.all (·.isDigit) then none
  else
    let n := digitsToNat p.2
    if p.1 then if n ≤ 2 ^ 63 then some (-(n : Int)) else none
    else if n < 2 ^ 63 then some (n : Int) else none

/-- `get_commit_time`: run `git log -1 --format=%ct <ref>` and parse the
timestamp. -/
def get_commit_time (cli : GitCLI) (git_ref : String) :
    Except CommitSenseError Int :=
  match run_git_command_internal cli (.logTime git_ref) with
  | .error e => .error e
  | .ok output =>
    let time_str := parse_output output
    match parseI64 time_str with
    | some t => .ok t
    | none =>
      .error (.GitCommand
        ("Failed to parse commit time \x27" ++ time_str ++ "\x27 for ref \x27" ++
          git_ref ++ "\x27: invalid digit found in string"))

/-- `get_commit_oid`: run `git rev-parse <ref>@\x7b\x7d` (the source appends the
literal suffix `@\x7b\x7d` to every ref) and require a nonempty OID. -/
def get_commit_oid (cli : GitCLI) (git_ref : String) :
    Except CommitSenseError String :=
  match run_git_command_internal cli (.revParse (git_ref ++ "@\x7b\x7d")) with
  | .error e => .error e
  | .ok output =>
    let oid := parse_output output
    if oid = "" then
      .error (.GitCommand
        ("Failed to resolve ref \x27" ++ git_ref ++ "\x27 to an OID."))
    else .ok oid

/-- `tag_name.strip_prefix('v').unwrap_or(tag_name)`. -/
def stripV (s : String) : String :=
  match s.data with
  | 'v' :: rest => ⟨rest⟩
  | _ => s

/-- The tag-collection loop shared by strategies 2 and 3: keep the tags
satisfying the match predicate whose commit time can be fetched, as
`(commit_time, tag_name)` pairs in iteration order; a failing per-tag
time lookup only skips that tag. -/
def collectMatching (cli : GitCLI) (matchesF : String → Bool) :
    List String → List (Int × String)
  | [] => []
  | tag_name :: rest =>
    if matchesF tag_name then
      match get_commit_time cli tag_name with
      | .ok time => (time, tag_name) :: collectMatching cli matchesF rest
      | .error _ => collectMatching cli matchesF rest
    else collectMatching cli matchesF rest

/-- Insert into a list sorted ascending by commit time (stable: equal keys
stay behind existing ones). -/
def insertByTime (x : Int × String) : List (Int × String) → List (Int × String)
  | [] => [x]
  | y :: ys => if x.1 < y.1 then x :: y :: ys else y :: insertByTime x ys

/-- `potential_tags.sort_unstable_by_key(|k| k.0)`: some permutation
sorted ascending by commit time.  The source's sort is unstable, so the
relative order of equal timestamps is unspecified there; this model uses a
stable insertion sort, and no theorem below depends on the order of equal
timestamps. -/
def sortByTime (l : List (Int × String)) : List (Int × String) :=
  l.foldr insertByTime []

/-- The strategy-5 loop: fold over all tags, parsing `strip_prefix('v')`
names as semantic versions and keeping the candidate that is newer, where
`(version, time)` is newer when the version is greater in the crate order,
or equal (structurally) with a strictly later commit time.  Tags that fail
to parse, or whose commit-time lookup fails, are skipped. -/
def scanSemver (cli : GitCLI) :
    List String → Option (Version × String × Int) → Option (Version × String × Int)
  | [], latest_semver_tag => latest_semver_tag
  | tag_name :: rest, latest_semver_tag =>
    match Version.parse (stripV tag_name) with
    | some version =>
      match get_commit_time cli tag_name with
      | .ok time =>
        let is_newer :=
          match latest_semver_tag with
          | some (latest_v, _, latest_time) =>
            version.gt latest_v || (version = latest_v && time > latest_time)
          | none => true
        scanSemver cli rest
          (if is_newer then some (version, tag_name, time) else latest_semver_tag)
      | .error _ => scanSemver cli rest latest_semver_tag
    | none => scanSemver cli rest latest_semver_tag

/-- Strategies 5 (latest semantic version tag) and 6 (initial commit). -/
def strategies_5_6 (cli : GitCLI) (all_tags : List String) :
    Except AnyhowError String :=
  match scanSemver cli all_tags none with
  | some (_, tag_name, _) =>
    (match get_commit_oid cli tag_name with
     | .ok oid => .ok oid
     | .error e =>
       .error ⟨["Failed to resolve commit OID for SemVer tag \x27" ++
         tag_name ++ "\x27"], .cs e⟩)
  | none =>
    match run_git_command_internal cli .revListRoots with
    | .error e => .error ⟨[], .cs e⟩
    | .ok output =>
      match (parse_output_lines output).head? with
      | some initial_oid => .ok initial_oid
      | none =>
        .error ⟨[], .cs (.GitCommand
          "Could not find the initial commit (no commits with zero parents found from HEAD).")⟩

/-- Strategies 4 (conventional `release: ` commit), 5 (latest semantic
version tag) and 6 (initial commit), shared by every fall-through path of
`find_base_commit_oid`.  A failure of the grep command itself is logged
and absorbed (`grepResult` becomes `none`). -/
def strategies_4_5_6 (cli : GitCLI) (all_tags : List String) :
    Except AnyhowError String :=
  let grepResult : Option String :=
    match run_git_command_internal cli .grepRelease with
    | .ok output =>
      let oid := parse_output output
      if oid ≠ "" then some oid else none
    | .error _ => none
  match grepResult with
  | some oid => .ok oid
  | none => strategies_5_6 cli all_tags

/-- Strategies 2 through 6 of `find_base_commit_oid`, operating on the tag
list obtained (or defaulted to empty) by the caller. -/
def find_base_from_tags (cli : GitCLI)
    (tag_pattern_opt tag_regex_opt : Option String) (all_tags : List String) :
    Except AnyhowError String :=
  let patternStep : Except AnyhowError (Bool × List (Int × String)) :=
    match tag_pattern_opt with
    | some pattern_str =>
      (match GlobPattern.new pattern_str with
       | .ok pattern => .ok (true, collectMatching cli pattern.matches all_tags)
       | .error m => .error ⟨[], .globPattern m⟩)
    | none =>
      match tag_regex_opt with
      | some regex_str =>
        (match Regex.new regex_str with
         | .ok regex => .ok (true, collectMatching cli regex.is_match all_tags)
         | .error m => .error ⟨[], .regexSyntax m⟩)
      | none => .ok (false, [])
  match patternStep with
  | .error e => .error e
  | .ok (pattern_match, potential_tags) =>
    if pattern_match ∧ potential_tags ≠ [] then
      match (sortByTime potential_tags).getLast? with
      | some latest =>
        (match get_commit_oid cli latest.2 with
         | .ok oid => .ok oid
         | .error e =>
           .error ⟨["Failed to resolve commit OID for tag \x27" ++
             latest.2 ++ "\x27"], .cs e⟩)
      | none => strategies_4_5_6 cli all_tags
    else strategies_4_5_6 cli all_tags

/-- `find_base_commit_oid`: strategy 1 (explicit base ref, fatal on
failure), then the tag listing (a listing failure degrades to an empty
list), then strategies 2 through 6. -/
def find_base_commit_oid (cli : GitCLI)
    (base_ref_opt tag_pattern_opt tag_regex_opt : Option String) :
    Except AnyhowError String :=
  match base_ref_opt with
  | some base_ref =>
    (match get_commit_oid cli base_ref with
     | .ok oid => .ok oid
     | .error e =>
       .error ⟨["Failed to resolve explicit base ref \x27" ++ base_ref ++ "\x27"],
         .cs e⟩)
  | none =>
    let all_tags : List String :=
      match run_git_command_internal cli .tagList with
      | .ok output => parse_output_lines output
      | .error _ => []
    find_base_from_tags cli tag_pattern_opt tag_regex_opt all_tags

/-- `get_commits_since_oid`: resolve `HEAD` (via `get_commit_oid`, i.e.
`git rev-parse HEAD@\x7b\x7d`), short-circuit to an empty list when it equals the
base, otherwise split the `<base>..HEAD` log output on the `<EOM>`
markers. -/
def get_commits_since_oid (cli : GitCLI) (base_oid : String) :
    Except AnyhowError (List String) :=
  match get_commit_oid cli "HEAD" with
  | .error e => .error ⟨[], .cs e⟩
  | .ok head_oid =>
    if head_oid = base_oid then .ok []
    else
      match run_git_command_internal cli (.logRange (base_oid ++ "..HEAD")) with
      | .error e => .error ⟨[], .cs e⟩
      | .ok output_str =>
        .ok (((splitOnSub "\n<EOM>\n" output_str).map
          (fun s => (⟨trimChars s.data⟩ : String))).filter (· ≠ ""))

/-! ## Concrete repository states and the git binary's behaviour

A `RepoState` is a linear-history repository: `commits` lists the commits
reachable from `HEAD` newest first (each commit's parent is the next
entry; the last entry is the root; an empty list is a repository with no
commits), plus the tags.  `RepoState.git` gives the observable behaviour
of git 2.39 for the six invocation shapes, as verified experimentally:

* `git tag --list` always succeeds (empty output when there are no tags);
* `git log -1 --format=%ct <ref>` prints the committer timestamp of the
  commit a tag or hash resolves to, and fails with an
  "ambiguous argument" error for an unknown ref;
* `git rev-parse <spec>` — every spec the source builds ends in the
  literal suffix `@\x7b\x7d`, which git rejects for *every* ref (branch, tag,
  hash, `HEAD`) as invalid revision syntax with
  "fatal: ambiguous argument ...: unknown revision or path not in the
  working tree." (the hint lines git appends are elided here);
* `git log --grep=^release:  -i -E -n 1 --format=%H HEAD` fails when the
  repository has no commits, and otherwise prints the hash of the newest
  commit one of whose message *lines* starts (case-insensitively) with
  `release: ` — the grep machinery matches line by line — or nothing;
* `git rev-list --max-parents=0 HEAD` fails when the repository has no
  commits (HEAD is unresolvable) and otherwise prints the parentless
  commits, here the last entry of the linear history;
* `git log <base>..HEAD --format=%B%n<EOM> --reverse` prints the messages
  of the commits after `base`, oldest first, each followed by an `<EOM>`
  marker line. -/

/-- One commit: identifier, full message, committer timestamp. -/
structure Commit where
  oid : String
  message : String
  ctime : Int
deriving DecidableEq, Repr

/-- One tag: its name and the commit identifier it (after peeling) points
at. -/
structure TagRef where
  name : String
  target : String
deriving DecidableEq, Repr

/-- A linear-history repository state. -/
structure RepoState where
  commits : List Commit
  tags : List TagRef
deriving DecidableEq, Repr

/-- git's "unknown revision" failure text (first stderr line). -/
def ambiguousArg (spec : String) : String :=
  "fatal: ambiguous argument \x27" ++ spec ++
    "\x27: unknown revision or path not in the working tree."

/-- Resolve a plain ref (tag name or commit hash) to its commit, as
`git log -1 <ref>` would. -/
def RepoState.resolvePlain (st : RepoState) (r : String) : Option Commit :=
  match st.tags.find? (fun t => t.name = r) with
  | some t => st.commits.find? (fun c => c.oid = t.target)
  | none => st.commits.find? (fun c => c.oid = r)

/-- Does some line of the message start, case-insensitively, with the
literal `release: `?  This is what `--grep=^release: ` with `-i` matches
(git's grep is applied to each line of the commit message). -/
def releaseLineMatch (msg : String) : Bool :=
  (splitOnCharL '\n' msg.data).any
    (fun l => (l.take 9).map asciiToLower = "release: ".data)

/-- The git binary's behaviour on a concrete repository state. -/
def RepoState.git (st : RepoState) : GitCLI := fun cmd =>
  match cmd with
  | .tagList => .ok (joinSep "\n" (st.tags.map (fun t => t.name)))
  | .logTime r =>
    (match st.resolvePlain r with
     | some c => .ok (intToDecimal c.ctime)
     | none => .error (ambiguousArg r))
  | .revParse spec => .error (ambiguousArg spec)
  | .grepRelease =>
    if st.commits = [] then .error (ambiguousArg "HEAD")
    else
      .ok (match st.commits.find? (fun c => releaseLineMatch c.message) with
           | some c => c.oid
           | none => "")
  | .revListRoots =>
    (match st.commits.getLast? with
     | some root => .ok root.oid
     | none => .error (ambiguousArg "HEAD"))
  | .logRange range =>
    let base := (splitOnSub ".." range).headD ""
    if (st.commits.find? (fun c => c.oid = base)).isSome then
      .ok (joinSep ""
        ((st.commits.takeWhile (fun c => c.oid ≠ base)).reverse.map
          (fun c => c.message ++ "\n<EOM>\n")))
    else .error (ambiguousArg range)

/-! ## Concrete repository states used in the theorems -/

/-- Three commits, tagged `v0.9.0`, `v1.0.0` and `v2.0.0-rc.1` (the
specification's strategy-5 scenario); no conventional release commit. -/
def semRepo : RepoState :=
  { commits := [⟨"c3", "third", 300⟩, ⟨"c2", "second", 200⟩, ⟨"c1", "first", 100⟩],
    tags := [⟨"v0.9.0", "c1"⟩, ⟨"v2.0.0-rc.1", "c3"⟩, ⟨"v1.0.0", "c2"⟩] }

/-- Two commits with two qualifying tags at times 100 < 200 (the
strategy-2/3 scenario). -/
def globRepo : RepoState :=
  { commits := [⟨"c2", "second", 200⟩, ⟨"c1", "first", 100⟩],
    tags := [⟨"rel-b", "c2"⟩, ⟨"rel-a", "c1"⟩] }

/-- Newest commit matches `release: ` only mid-line, the middle commit has
a case-different `Release: ` at the start, the oldest is unrelated. -/
def grepRepo : RepoState :=
  { commits := [⟨"c3", "prerelease: not a match", 300⟩,
                ⟨"c2", "Release: 2.0 shipped", 200⟩,
                ⟨"c1", "see release: x notes", 100⟩],
    tags := [] }

/-- A single commit whose message contains `release: x` only at the start
of its second line, not at the start of the message. -/
def secondLineRepo : RepoState :=
  { commits := [⟨"d1", "chore stuff\nrelease: x", 100⟩], tags := [] }

/-- A repository with zero commits. -/
def emptyRepo : RepoState := { commits := [], tags := [] }

/-- Two ordinary commits, no tags, no release commit: only the
initial-commit fallback applies. -/
def rootRepo : RepoState :=
  { commits := [⟨"c2", "second", 200⟩, ⟨"c1", "first", 100⟩], tags := [] }

/-- A git interface whose every invocation fails (used to exercise the
listing-failure paths). -/
def failingCLI : GitCLI := fun _ => .error "fatal: not a git repository"

/-! ## Claim theorems -/

/-- Claim C1: the claim states that a resolvable explicit reference is
returned as exactly the commit it points to.  The code appends the literal
suffix `@\x7b\x7d` to the reference and git rejects that suffix as invalid
revision syntax for every reference, so strategy 1 fails for *every*
repository state and *every* explicit reference — including resolvable
branches, tags and hashes — contradicting the code's own comments
("Use `@\x7b\x7d` to handle branches correctly, falls back for tags/hashes").
This theorem evaluates the code on an arbitrary repository state. -/
theorem C1_explicit_ref_always_fails (st : RepoState) (base_ref : String)
    (g x : Option String) :
    find_base_commit_oid st.git (some base_ref) g x =
      .error ⟨["Failed to resolve explicit base ref \x27" ++ base_ref ++ "\x27"],
        .cs (.GitCommand
          ("Git command `git " ++ (GitCmd.revParse (base_ref ++ "@\x7b\x7d")).render ++
            "` failed. Stderr: " ++ ambiguousArg (base_ref ++ "@\x7b\x7d")))⟩ := rfl

/-- Claim C2: on the specification's own scenario (tags `v1.0.0`,
`v0.9.0`, `v2.0.0-rc.1`, no other strategy applicable) strategy 5 does
select `v2.0.0-rc.1` by crate semver ordering — the error context names
it — but the function then fails to resolve the tag to a commit (the
`@\x7b\x7d` rev-parse defect) instead of returning its commit identifier. -/
theorem C2_semver_selection_eval :
    find_base_commit_oid semRepo.git none none none =
      .error ⟨["Failed to resolve commit OID for SemVer tag \x27v2.0.0-rc.1\x27"],
        .cs (.GitCommand
          "Git command `git rev-parse v2.0.0-rc.1@\x7b\x7d` failed. Stderr: fatal: ambiguous argument \x27v2.0.0-rc.1@\x7b\x7d\x27: unknown revision or path not in the working tree.")⟩ :=
  rfl

/-- Claim C3: with two qualifying tags at commit times 100 < 200, both the
glob strategy and the regex strategy select the tag with the greater
commit time (`rel-b`, named in the error context) but then fail to resolve
it to a commit (the `@\x7b\x7d` rev-parse defect) instead of returning its
commit identifier. -/
theorem C3_pattern_tag_eval :
    find_base_commit_oid globRepo.git none (some "rel-*") none =
        .error ⟨["Failed to resolve commit OID for tag \x27rel-b\x27"],
          .cs (.GitCommand
            "Git command `git rev-parse rel-b@\x7b\x7d` failed. Stderr: fatal: ambiguous argument \x27rel-b@\x7b\x7d\x27: unknown revision or path not in the working tree.")⟩ ∧
      find_base_commit_oid globRepo.git none none (some "^rel-") =
        .error ⟨["Failed to resolve commit OID for tag \x27rel-b\x27"],
          .cs (.GitCommand
            "Git command `git rev-parse rel-b@\x7b\x7d` failed. Stderr: fatal: ambiguous argument \x27rel-b@\x7b\x7d\x27: unknown revision or path not in the working tree.")⟩ :=
  ⟨rfl, rfl⟩

/-- Claim C4, counterexample: the claim asserts the conventional-release
search is anchored at the start of the *message*, so a message that does
not begin with the prefix is never matched.  The repository commit whose
message is `chore stuff\nrelease: x` does not begin (case-insensitively)
with `release: `, yet the code's `git log --grep=^release:  -i -E`
invocation matches it — git's grep is applied per message line — and the
resolver returns it as the base. -/
theorem C4_release_grep_cex :
    find_base_commit_oid secondLineRepo.git none none none = .ok "d1" ∧
      isPrefixL "release: ".data
        (("chore stuff\nrelease: x").data.map asciiToLower) = false :=
  ⟨rfl, rfl⟩

/-- Claim C4, amended: strategy 4 returns the most recent commit reachable
from `HEAD` one of whose message *lines* begins, case-insensitively, with
the literal prefix `release: ` (at line start, not merely as a mid-line
substring); both `Release: x` and `release: x` at the start of a message
are matched, while a message containing `release: x` only mid-line is
not. -/
theorem C4_release_grep (st : RepoState) (c : Commit)
    (h1 : st.commits.find? (fun k => releaseLineMatch k.message) = some c)
    (h2 : parse_output c.oid = c.oid) (h3 : c.oid ≠ "") :
    find_base_commit_oid st.git none none none = .ok c.oid ∧
      releaseLineMatch "Release: x" = true ∧
      releaseLineMatch "release: x" = true ∧
      releaseLineMatch "see release: x notes" = false := by
  have hne : st.commits ≠ [] := by
    intro h
    rw [h] at h1
    simp [List.find?] at h1
  refine ⟨?_, rfl, rfl, rfl⟩
  simp only [find_base_commit_oid, find_base_from_tags, strategies_4_5_6,
    run_git_command_internal, RepoState.git]
  simp [h1, h2, h3, hne]

/-- Claim C4, witness: in `grepRepo` the newest commit matches only
mid-line and the second-newest starts with `Release: `, so the resolver
returns the second-newest commit. -/
theorem C4_release_grep_witness :
    find_base_commit_oid grepRepo.git none none none = .ok "c2" :=
  (C4_release_grep grepRepo ⟨"c2", "Release: 2.0 shipped", 200⟩ rfl rfl
    (by decide)).1

/-- Claim C5: on a repository with zero commits, `git rev-list
--max-parents=0 HEAD` itself fails (HEAD is unresolvable), and the `?`
operator propagates that raw command failure; the dedicated "Could not
find the initial commit" message — which the code's own comment reserves
for the completely empty repository — is unreachable.  The error kind is
`GitCommand`, but its message is the rev-list command failure.  On a
non-empty repository with no other strategy applicable, the first
parentless commit is returned, as claimed. -/
theorem C5_no_commits_eval :
    find_base_commit_oid emptyRepo.git none none none =
        .error ⟨[], .cs (.GitCommand
          "Git command `git rev-list --max-parents=0 HEAD` failed. Stderr: fatal: ambiguous argument \x27HEAD\x27: unknown revision or path not in the working tree.")⟩ ∧
      find_base_commit_oid rootRepo.git none none none = .ok "c1" :=
  ⟨rfl, rfl⟩

/-- Claim C6: `get_commits_since_oid` first resolves `HEAD` through
`get_commit_oid`, i.e. `git rev-parse HEAD@\x7b\x7d`, which git rejects for
every repository state; the function therefore fails before it can compare
the base to the head, even when they are equal — it never returns the
claimed empty list. -/
theorem C6_same_oid_eval (st : RepoState) (base_oid : String) :
    get_commits_since_oid st.git base_oid =
      .error ⟨[], .cs (.GitCommand
        "Git command `git rev-parse HEAD@\x7b\x7d` failed. Stderr: fatal: ambiguous argument \x27HEAD@\x7b\x7d\x27: unknown revision or path not in the working tree.")⟩ :=
  rfl

/-- Claim C7: (1) a failing tag enumeration degrades to an empty tag list
and the chain continues; (2) a failing conventional-commit search command
is absorbed and the chain continues with strategies 5 and 6; (3) in the
glob/regex collection loop, a failing commit-time lookup skips exactly
that candidate; (4) likewise in the semantic-version scan. -/
theorem C7_listing_failures :
    (∀ (cli : GitCLI) (p x : Option String) (em : String),
        cli .tagList = .error em →
        find_base_commit_oid cli none p x = find_base_from_tags cli p x []) ∧
    (∀ (cli : GitCLI) (tags : List String) (em : String),
        cli .grepRelease = .error em →
        strategies_4_5_6 cli tags = strategies_5_6 cli tags) ∧
    (∀ (cli : GitCLI) (f : String → Bool) (l1 l2 : List String) (t : String)
        (e : CommitSenseError), get_commit_time cli t = .error e →
        collectMatching cli f (l1 ++ t :: l2) = collectMatching cli f (l1 ++ l2)) ∧
    (∀ (cli : GitCLI) (l1 l2 : List String) (t : String)
        (acc : Option (Version × String × Int)) (e : CommitSenseError),
        get_commit_time cli t = .error e →
        scanSemver cli (l1 ++ t :: l2) acc = scanSemver cli (l1 ++ l2) acc) := by
  refine ⟨?_, ?_, ?_, ?_⟩
  · intro cli p x em h
    simp only [find_base_commit_oid, run_git_command_internal, h]
  · intro cli tags em h
    simp only [strategies_4_5_6, run_git_command_internal, h]
  · intro cli f l1 l2 t e h
    induction l1 with
    | nil =>
      cases hf : f t <;> simp [collectMatching, hf, h]
    | cons a l1 ih =>
      cases hf : f a
      · simp [collectMatching, hf, ih]
      · cases hct : get_commit_time cli a <;>
          simp [collectMatching, hf, hct, ih]
  · intro cli l1 l2 t acc e h
    induction l1 generalizing acc with
    | nil =>
      cases hv : Version.parse (stripV t) <;> simp [scanSemver, hv, h]
    | cons a l1 ih =>
      cases hv : Version.parse (stripV a)
      · simp [scanSemver, hv, ih]
      · cases hct : get_commit_time cli a <;> simp [scanSemver, hv, hct, ih]

/-- Claim C7, witness: the four parts applied to a git interface whose
every command fails, and to a concrete tag whose commit-time lookup
fails. -/
theorem C7_listing_failures_witness :
    (find_base_commit_oid failingCLI none none none =
        find_base_from_tags failingCLI none none []) ∧
      (strategies_4_5_6 failingCLI ["v1.0.0"] = strategies_5_6 failingCLI ["v1.0.0"]) ∧
      (collectMatching failingCLI (fun _ => true) ([] ++ "v1.0.0" :: []) =
        collectMatching failingCLI (fun _ => true) ([] ++ [])) ∧
      (scanSemver failingCLI ([] ++ "v1.0.0" :: []) none =
        scanSemver failingCLI ([] ++ []) none) :=
  ⟨C7_listing_failures.1 failingCLI none none "fatal: not a git repository" rfl,
   C7_listing_failures.2.1 failingCLI ["v1.0.0"] "fatal: not a git repository" rfl,
   C7_listing_failures.2.2.1 failingCLI (fun _ => true) [] [] "v1.0.0"
     (.GitCommand
       "Git command `git log -1 --format=%ct v1.0.0` failed. Stderr: fatal: not a git repository")
     rfl,
   C7_listing_failures.2.2.2 failingCLI [] [] "v1.0.0" none
     (.GitCommand
       "Git command `git log -1 --format=%ct v1.0.0` failed. Stderr: fatal: not a git repository")
     rfl⟩

/-- Claim C8: a tag whose name (after stripping an optional leading `v`)
fails semantic-version parsing is transparent to the strategy-5 scan and
to the whole post-listing resolution chain with no glob/regex supplied —
it is never selected and never causes an error. -/
theorem C8_nonsemver_excluded :
    (∀ (cli : GitCLI) (l1 l2 : List String) (t : String)
        (acc : Option (Version × String × Int)),
        Version.parse (stripV t) = none →
        scanSemver cli (l1 ++ t :: l2) acc = scanSemver cli (l1 ++ l2) acc) ∧
    (∀ (cli : GitCLI) (l1 l2 : List String) (t : String),
        Version.parse (stripV t) = none →
        find_base_from_tags cli none none (l1 ++ t :: l2) =
          find_base_from_tags cli none none (l1 ++ l2)) := by
  have part1 : ∀ (cli : GitCLI) (l1 l2 : List String) (t : String)
      (acc : Option (Version × String × Int)),
      Version.parse (stripV t) = none →
      scanSemver cli (l1 ++ t :: l2) acc = scanSemver cli (l1 ++ l2) acc := by
    intro cli l1 l2 t acc h
    induction l1 generalizing acc with
    | nil => simp [scanSemver, h]
    | cons a l1 ih =>
      cases hv : Version.parse (stripV a)
      · simp [scanSemver, hv, ih]
      · cases hct : get_commit_time cli a <;> simp [scanSemver, hv, hct, ih]
  refine ⟨part1, ?_⟩
  intro cli l1 l2 t h
  have h56 : strategies_5_6 cli (l1 ++ t :: l2) = strategies_5_6 cli (l1 ++ l2) := by
    simp only [strategies_5_6]
    rw [part1 cli l1 l2 t none h]
  simp only [find_base_from_tags, strategies_4_5_6]
  rw [h56]

/-- Claim C8, witness: the non-semver tag `release-candidate` is
transparent both to the scan and to the resolution chain of a concrete
repository (and so is `latest`, already present in the remaining list). -/
theorem C8_nonsemver_excluded_witness :
    (scanSemver rootRepo.git (["latest"] ++ "release-candidate" :: []) none =
        scanSemver rootRepo.git (["latest"] ++ []) none) ∧
      (find_base_from_tags rootRepo.git none none
          (["latest"] ++ "release-candidate" :: []) =
        find_base_from_tags rootRepo.git none none (["latest"] ++ [])) :=
  ⟨C8_nonsemver_excluded.1 rootRepo.git ["latest"] [] "release-candidate" none rfl,
   C8_nonsemver_excluded.2 rootRepo.git ["latest"] [] "release-candidate" rfl⟩

/-- Every error `get_commit_oid` can return is the `GitCommand` variant
(either the propagated command failure or the empty-OID check). -/
theorem get_commit_oid_error_is_git_command (cli : GitCLI) (r : String)
    (e : CommitSenseError) (h : get_commit_oid cli r = .error e) :
    e.isGitCommand = true := by
  cases hres : cli (.revParse (r ++ "@\x7b\x7d")) with
  | ok out =>
    by_cases hz : parse_output out = ""
    · simp only [get_commit_oid, run_git_command_internal, hres, hz, if_true,
        Except.error.injEq] at h
      rw [← h]
      rfl
    · simp only [get_commit_oid, run_git_command_internal, hres, if_neg hz,
        reduceCtorEq] at h
  | error stderr =>
    simp only [get_commit_oid, run_git_command_internal, hres,
      Except.error.injEq] at h
    rw [← h]
    rfl

/-- Claim C9, counterexample: the claim asserts a `Version`/`Config`-style
error kind when an explicit reference cannot be resolved; on a concrete
repository with an unknown explicit reference the root cause is the
`GitCommand` variant and not `Version`/`Config`. -/
theorem C9_error_kind_cex :
    (match find_base_commit_oid semRepo.git (some "nonexistent") none none with
     | .error e => e.rootIsGitCommand && !e.rootIsVersionOrConfig
     | .ok _ => false) = true := rfl

/-- Claim C9, amended: when resolving an explicitly supplied reference
fails, `find_base_commit_oid` fails immediately with the underlying
`GitCommand`-kind error wrapped in a context message naming the explicit
base ref — not with a `Version`/`Config`-style kind. -/
theorem C9_explicit_ref_error_kind (cli : GitCLI) (r : String)
    (g x : Option String) (e : CommitSenseError)
    (h : get_commit_oid cli r = .error e) :
    find_base_commit_oid cli (some r) g x =
        .error ⟨["Failed to resolve explicit base ref \x27" ++ r ++ "\x27"], .cs e⟩ ∧
      e.isGitCommand = true := by
  constructor
  · simp only [find_base_commit_oid, h]
  · exact get_commit_oid_error_is_git_command cli r e h

/-- Claim C9, witness: the amended statement applied to a concrete
repository and the unknown explicit reference `nonexistent`. -/
theorem C9_explicit_ref_error_kind_witness :
    (find_base_commit_oid semRepo.git (some "nonexistent") none none =
        .error ⟨["Failed to resolve explicit base ref \x27nonexistent\x27"],
          .cs (.GitCommand
            "Git command `git rev-parse nonexistent@\x7b\x7d` failed. Stderr: fatal: ambiguous argument \x27nonexistent@\x7b\x7d\x27: unknown revision or path not in the working tree.")⟩) ∧
      CommitSenseError.isGitCommand
        (.GitCommand
          "Git command `git rev-parse nonexistent@\x7b\x7d` failed. Stderr: fatal: ambiguous argument \x27nonexistent@\x7b\x7d\x27: unknown revision or path not in the working tree.") = true :=
  C9_explicit_ref_error_kind semRepo.git "nonexistent" none none
    (.GitCommand
      "Git command `git rev-parse nonexistent@\x7b\x7d` failed. Stderr: fatal: ambiguous argument \x27nonexistent@\x7b\x7d\x27: unknown revision or path not in the working tree.")
    rfl

/-- Claim C10: a glob pattern that fails to compile, or (with no glob
supplied) a regular expression that fails to compile, makes
`find_base_commit_oid` return the compilation error immediately — it does
not treat the pattern as matching nothing and does not fall through to the
later strategies. -/
theorem C10_invalid_pattern_error :
    (∀ (cli : GitCLI) (g : String) (x : Option String) (m : String),
        GlobPattern.new g = .error m →
        find_base_commit_oid cli none (some g) x = .error ⟨[], .globPattern m⟩) ∧
    (∀ (cli : GitCLI) (x m : String),
        Regex.new x = .error m →
        find_base_commit_oid cli none none (some x) = .error ⟨[], .regexSyntax m⟩) := by
  constructor
  · intro cli g x m h
    simp only [find_base_commit_oid, find_base_from_tags, h]
  · intro cli x m h
    simp only [find_base_commit_oid, find_base_from_tags, h]

/-- Claim C10, witness: the unclosed class `[` and the unclosed group `(`
are rejected by the respective compilers, and the resolver surfaces those
errors directly on a concrete repository. -/
theorem C10_invalid_pattern_error_witness :
    (find_base_commit_oid semRepo.git none (some "[") none =
        .error ⟨[], .globPattern
          "Pattern syntax error near position 0: invalid range pattern"⟩) ∧
      (find_base_commit_oid semRepo.git none none (some "(") =
        .error ⟨[], .regexSyntax
          "regex parse error: unsupported or invalid syntax"⟩) :=
  ⟨C10_invalid_pattern_error.1 semRepo.git "[" none
      "Pattern syntax error near position 0: invalid range pattern" rfl,
    C10_invalid_pattern_error.2 semRepo.git "("
      "regex parse error: unsupported or invalid syntax" rfl⟩

end CommitSense
